import Mathlib

/-!
Verification of `res/bake_and_export.py`, a Blender add-on that bakes
diffuse lighting into vertex colors and exports each object of the scene
collection named "Collection" as a `.obj` file.

The host application (Blender, reached through `bpy`) is modelled as an
explicit state: the set of currently selected object names, the active
object, and a trace of every host call the script performs.  Host
operations that can raise (`bpy.ops.object.bake`, `bpy.ops.wm.obj_export`)
are modelled through an oracle assigning each object an optional error;
the error-free run instantiates the oracle with `none` everywhere.
-/

namespace BakeAndExport

/-- One call into the host application, as performed by the script.
`bake` records the active object and the selection at the moment of the
call, since `bpy.ops.object.bake` operates on them implicitly; `objExport`
records the selection because the export call passes
`export_selected_objects=True`. -/
inductive HostCall where
  | selectAll (action : String)
  | selectSet (objName : String) (value : Bool)
  | setActiveObject (objName : String)
  | bake (bakeType : String) (target : String)
      (activeObj : Option String) (selectedObjs : List String)
  | objExport (filepath : String) (selectedObjs : List String)
  | printMsg (msg : String)
  deriving Repr, DecidableEq

/-- The mutable host state visible to the script, plus the trace of host
calls made so far. -/
structure BlenderState where
  selected : List String
  active : Option String
  trace : List HostCall
  deriving Repr, DecidableEq

/-- The host's scene data: named collections, each a list of object names
in iteration order (`bpy.data.collections`). -/
structure BlenderData where
  collections : List (String × List String)
  deriving Repr, DecidableEq

/-- `bpy.data.collections.get(name)`: lookup by name, `None` if absent. -/
def collections_get (data : BlenderData) (name : String) : Option (List String) :=
  data.collections.lookup name

/-- `bpy.ops.object.select_all(action='DESELECT')`. -/
def doSelectAllDeselect (st : BlenderState) : BlenderState :=
  { st with selected := [],
            trace := st.trace ++ [HostCall.selectAll "DESELECT"] }

/-- `obj.select_set(value)`. -/
def doSelectSet (name : String) (v : Bool) (st : BlenderState) : BlenderState :=
  { st with
    selected :=
      if v then (if name ∈ st.selected then st.selected else st.selected ++ [name])
      else st.selected.erase name,
    trace := st.trace ++ [HostCall.selectSet name v] }

/-- `bpy.context.view_layer.objects.active = obj`. -/
def doSetActive (name : String) (st : BlenderState) : BlenderState :=
  { st with active := some name,
            trace := st.trace ++ [HostCall.setActiveObject name] }

/-- `bpy.ops.object.bake(type=..., target=...)`: acts on the active and
selected objects, recorded in the event. -/
def doBake (bakeType target : String) (st : BlenderState) : BlenderState :=
  { st with trace := st.trace ++ [HostCall.bake bakeType target st.active st.selected] }

/-- `bpy.ops.wm.obj_export(filepath=..., export_selected_objects=True, ...)`. -/
def doExport (filepath : String) (st : BlenderState) : BlenderState :=
  { st with trace := st.trace ++ [HostCall.objExport filepath st.selected] }

/-- `print(msg)`. -/
def doPrint (msg : String) (st : BlenderState) : BlenderState :=
  { st with trace := st.trace ++ [HostCall.printMsg msg] }

/-- Per-object outcomes of the two fallible host operators: `bakeErr obj`
(resp. `exportErr obj`) is `some e` when the bake (resp. export) call
performed while processing `obj` raises error `e`, `none` when it
succeeds. -/
structure HostOracle where
  bakeErr : String → Option String
  exportErr : String → Option String

/-- The oracle of an error-free run: every host call succeeds. -/
def noFail : HostOracle where
  bakeErr := fun _ => none
  exportErr := fun _ => none

/-- The hardcoded collection name of the script. -/
def collection_name : String := "Collection"

/-- The hardcoded output directory of the script. -/
def output_directory : String :=
  "C:/dev/rust/rust development/wgpu/New folder/cityscaper/res"

/-- `os.path.join(a, b)` for a first component that does not end in a
separator: an absolute second component replaces the first, otherwise the
parts are joined with a separator. -/
def os_path_join (a b : String) : String :=
  if b.startsWith "/" then b else a ++ "/" ++ b

/-- `bake_lighting(obj)`: make `obj` active, deselect all, select `obj`,
then invoke the host bake operator with `type='DIFFUSE'`,
`target='VERTEX_COLORS'` (which may raise). -/
def bake_lighting (orc : HostOracle) (obj : String) (st : BlenderState) :
    Except String BlenderState :=
  let st1 := doSetActive obj st
  let st2 := doSelectAllDeselect st1
  let st3 := doSelectSet obj true st2
  match orc.bakeErr obj with
  | some e => Except.error e
  | none => Except.ok (doBake "DIFFUSE" "VERTEX_COLORS" st3)

/-- `export_obj(obj, filepath)`: invoke the host obj exporter (which may
raise) on the current selection. -/
def export_obj (orc : HostOracle) (obj : String) (filepath : String)
    (st : BlenderState) : Except String BlenderState :=
  match orc.exportErr obj with
  | some e => Except.error e
  | none => Except.ok (doExport filepath st)

/-- The body of `execute`'s `for obj in collection.objects:` loop, one
object at a time: select the object, bake, build the file path, export,
deselect.  An error raised by a host call aborts the loop and propagates
(there is no exception handler in the script). -/
def runObjects (orc : HostOracle) : List String → BlenderState →
    Except String BlenderState
  | [], st => Except.ok st
  | obj :: rest, st =>
    match bake_lighting orc obj (doSelectSet obj true st) with
    | Except.error e => Except.error e
    | Except.ok st2 =>
      let obj_name := obj.toLower
      let filepath := os_path_join output_directory (obj_name ++ ".obj")
      match export_obj orc obj filepath st2 with
      | Except.error e => Except.error e
      | Except.ok st3 => runObjects orc rest (doSelectSet obj false st3)

/-- The value `execute` hands back to the host: either Python's implicit
`None` (the bare `return` on the missing-collection path) or a set of
status strings (`return \x7b'FINISHED'\x7d`). -/
inductive ExecReturn where
  | pyNone
  | statusSet (statuses : List String)
  deriving Repr, DecidableEq

/-- Blender's failure status value is the set containing `'CANCELLED'`;
a return value is a failure status exactly when it is a status set
containing that string. -/
def isFailureStatus : ExecReturn → Bool
  | ExecReturn.pyNone => false
  | ExecReturn.statusSet l => l.contains "CANCELLED"

/-- `BakeAndExport.execute`: look the collection up by name; if missing,
print a message and return (Python `None`); otherwise deselect all and
process every object of the collection, then return `\x7b'FINISHED'\x7d`. -/
def execute (orc : HostOracle) (data : BlenderData) (st : BlenderState) :
    Except String (ExecReturn × BlenderState) :=
  match collections_get data collection_name with
  | none => Except.ok (ExecReturn.pyNone, doPrint "Collection not found." st)
  | some collectionObjs =>
    match runObjects orc collectionObjs (doSelectAllDeselect st) with
    | Except.error e => Except.error e
    | Except.ok st2 => Except.ok (ExecReturn.statusSet ["FINISHED"], st2)

/-- `BakeAndExport.bl_idname`. -/
def bl_idname : String := "object.bake_and_export"

/-- The host's registration state touched by `register`/`unregister`:
the registered operator classes (by idname) and the entries of the
`VIEW3D_MT_object` menu. -/
structure HostUI where
  registeredClasses : List String
  view3dObjectMenu : List String
  deriving Repr, DecidableEq

/-- `register()`: `bpy.utils.register_class(BakeAndExport)` followed by
`bpy.types.VIEW3D_MT_object.append(menu_func)`. -/
def register (ui : HostUI) : HostUI :=
  { ui with registeredClasses := ui.registeredClasses ++ [bl_idname],
            view3dObjectMenu := ui.view3dObjectMenu ++ [bl_idname] }

/-- `unregister()`: only `bpy.utils.unregister_class(BakeAndExport)`;
the menu entry is not removed. -/
def unregister (ui : HostUI) : HostUI :=
  { ui with registeredClasses := ui.registeredClasses.erase bl_idname }

/-! ### Derived notions used to state the claims -/

/-- The export file path the script builds for an object name. -/
def exportFilepath (obj : String) : String :=
  os_path_join output_directory (obj.toLower ++ ".obj")

/-- The host calls performed while processing one object of the loop,
in order. -/
def perObjectEvents (obj : String) : List HostCall :=
  [HostCall.selectSet obj true,
   HostCall.setActiveObject obj,
   HostCall.selectAll "DESELECT",
   HostCall.selectSet obj true,
   HostCall.bake "DIFFUSE" "VERTEX_COLORS" (some obj) [obj],
   HostCall.objExport (exportFilepath obj) [obj],
   HostCall.selectSet obj false]

/-- The export calls of a trace, in order: file path and the selection at
the moment of the call. -/
def exportCalls (t : List HostCall) : List (String × List String) :=
  t.filterMap fun ev =>
    match ev with
    | HostCall.objExport fp sel => some (fp, sel)
    | _ => none

/-- The bake calls of a trace, in order: type, target, active object and
selection at the moment of the call. -/
def bakeCalls (t : List HostCall) : List (String × String × Option String × List String) :=
  t.filterMap fun ev =>
    match ev with
    | HostCall.bake ty tgt a sel => some (ty, tgt, a, sel)
    | _ => none

/-- A list of host calls that touches neither the selection nor the bake
engine nor the exporter: only log output. -/
def sceneCallFree (t : List HostCall) : Bool :=
  t.all fun ev =>
    match ev with
    | HostCall.printMsg _ => true
    | _ => false

/-- The active object after the loop has processed `objs`, starting from
active object `a`. -/
def activeAfter : List String → Option String → Option String
  | [], a => a
  | obj :: rest, _ => activeAfter rest (some obj)

/-- Position in `execute`'s trace of the bake call of the `k`-th object
(the initial deselect-all occupies position 0, each object contributes
seven host calls, the bake being the fifth). -/
def bakeCallIndex (k : Nat) : Nat := 7 * k + 5

/-- Position in `execute`'s trace of the export call of the `k`-th
object. -/
def exportCallIndex (k : Nat) : Nat := 7 * k + 6

/-! ### Characterization of the error-free run -/

@[simp] lemma noFail_bakeErr (o : String) : noFail.bakeErr o = none := rfl

@[simp] lemma noFail_exportErr (o : String) : noFail.exportErr o = none := rfl

lemma runObjects_noFail (objs : List String) (st : BlenderState)
    (h : st.selected = []) :
    runObjects noFail objs st =
      Except.ok { selected := [],
                  active := activeAfter objs st.active,
                  trace := st.trace ++ objs.flatMap perObjectEvents } := by
  induction objs generalizing st with
  | nil =>
    cases st
    simp_all [runObjects, activeAfter]
  | cons obj rest ih =>
    simp [runObjects, bake_lighting, export_obj, doSelectSet, doSetActive,
      doSelectAllDeselect, doBake, doExport, h, ih, perObjectEvents,
      exportFilepath, activeAfter]

lemma execute_noFail_found (data : BlenderData) (st : BlenderState)
    (objs : List String)
    (h : collections_get data collection_name = some objs) :
    execute noFail data st =
      Except.ok (ExecReturn.statusSet ["FINISHED"],
        { selected := [],
          active := activeAfter objs st.active,
          trace := st.trace ++
            (HostCall.selectAll "DESELECT" :: objs.flatMap perObjectEvents) }) := by
  simp only [execute, h]
  rw [runObjects_noFail objs (doSelectAllDeselect st) rfl]
  simp [doSelectAllDeselect, List.append_assoc]

lemma exportCalls_append (s t : List HostCall) :
    exportCalls (s ++ t) = exportCalls s ++ exportCalls t := by
  simp [exportCalls]

lemma bakeCalls_append (s t : List HostCall) :
    bakeCalls (s ++ t) = bakeCalls s ++ bakeCalls t := by
  simp [bakeCalls]

lemma exportCalls_perObjectEvents (obj : String) :
    exportCalls (perObjectEvents obj) = [(exportFilepath obj, [obj])] := rfl

lemma bakeCalls_perObjectEvents (obj : String) :
    bakeCalls (perObjectEvents obj) =
      [("DIFFUSE", "VERTEX_COLORS", some obj, [obj])] := rfl

lemma exportCalls_flatMap (objs : List String) :
    exportCalls (objs.flatMap perObjectEvents) =
      objs.map (fun o => (exportFilepath o, [o])) := by
  induction objs with
  | nil => rfl
  | cons obj rest ih =>
    rw [List.flatMap_cons, exportCalls_append, exportCalls_perObjectEvents,
      List.map_cons, ih]
    rfl

lemma bakeCalls_flatMap (objs : List String) :
    bakeCalls (objs.flatMap perObjectEvents) =
      objs.map (fun o => ("DIFFUSE", "VERTEX_COLORS", some o, [o])) := by
  induction objs with
  | nil => rfl
  | cons obj rest ih =>
    rw [List.flatMap_cons, bakeCalls_append, bakeCalls_perObjectEvents,
      List.map_cons, ih]
    rfl

lemma exportCalls_cons_selectAll (a : String) (t : List HostCall) :
    exportCalls (HostCall.selectAll a :: t) = exportCalls t := rfl

lemma bakeCalls_cons_selectAll (a : String) (t : List HostCall) :
    bakeCalls (HostCall.selectAll a :: t) = bakeCalls t := rfl

lemma perObjectEvents_length (obj : String) : (perObjectEvents obj).length = 7 := rfl

lemma flatMap_perObjectEvents_getElem (objs : List String) (k off : Nat)
    (hk : k < objs.length) (hoff : off < 7) :
    (objs.flatMap perObjectEvents)[7 * k + off]? =
      (perObjectEvents objs[k])[off]? := by
  induction objs generalizing k with
  | nil => simp at hk
  | cons obj rest ih =>
    cases k with
    | zero =>
      rw [List.flatMap_cons, List.getElem?_append_left]
      · simp
      · simpa [perObjectEvents_length] using hoff
    | succ m =>
      rw [List.flatMap_cons, List.getElem?_append_right]
      · have harith : 7 * (m + 1) + off - (perObjectEvents obj).length =
            7 * m + off := by
          rw [perObjectEvents_length]; omega
        rw [harith, ih m (by simpa using hk)]
        simp
      · rw [perObjectEvents_length]; omega

lemma fullTrace_bake_getElem (objs : List String) (k : Nat)
    (hk : k < objs.length) :
    (HostCall.selectAll "DESELECT" :: objs.flatMap perObjectEvents)[7 * k + 5]? =
      some (HostCall.bake "DIFFUSE" "VERTEX_COLORS" (some objs[k]) [objs[k]]) := by
  rw [show 7 * k + 5 = (7 * k + 4) + 1 by omega, List.getElem?_cons_succ,
    flatMap_perObjectEvents_getElem objs k 4 hk (by omega)]
  rfl

lemma fullTrace_export_getElem (objs : List String) (k : Nat)
    (hk : k < objs.length) :
    (HostCall.selectAll "DESELECT" :: objs.flatMap perObjectEvents)[7 * k + 6]? =
      some (HostCall.objExport (exportFilepath objs[k]) [objs[k]]) := by
  rw [show 7 * k + 6 = (7 * k + 5) + 1 by omega, List.getElem?_cons_succ,
    flatMap_perObjectEvents_getElem objs k 5 hk (by omega)]
  rfl

lemma runObjects_error (orc : HostOracle) (pre : List String) (o : String)
    (post : List String) (e : String)
    (hpre : ∀ p ∈ pre, orc.bakeErr p = none ∧ orc.exportErr p = none)
    (herr : orc.bakeErr o = some e ∨
      (orc.bakeErr o = none ∧ orc.exportErr o = some e)) :
    ∀ st, runObjects orc (pre ++ o :: post) st = Except.error e := by
  induction pre with
  | nil =>
    intro st
    rcases herr with hb | ⟨hb, he⟩
    · simp [runObjects, bake_lighting, hb]
    · simp [runObjects, bake_lighting, export_obj, hb, he]
  | cons p rest ih =>
    intro st
    have hp1 := (hpre p (List.mem_cons_self p rest)).1
    have hp2 := (hpre p (List.mem_cons_self p rest)).2
    have ih2 := ih fun q hq => hpre q (List.mem_cons_of_mem p hq)
    simp [runObjects, bake_lighting, export_obj, hp1, hp2, ih2]

/-! ### The claims -/

/-- C1: when the collection named "Collection" exists, `execute` performs,
for every object of the collection, one bake call with type `DIFFUSE` and
target `VERTEX_COLORS` on that object (it is the active and sole selected
object at the moment of the call) followed by the export call for that
object, producing exactly one export call per object of the collection, in
collection order. -/
theorem claim_C1 (data : BlenderData) (sel : List String) (act : Option String)
    (objs : List String)
    (h : collections_get data collection_name = some objs) :
    ∃ stF,
      execute noFail data ⟨sel, act, []⟩ =
        Except.ok (ExecReturn.statusSet ["FINISHED"], stF) ∧
      bakeCalls stF.trace =
        objs.map (fun o => ("DIFFUSE", "VERTEX_COLORS", some o, [o])) ∧
      exportCalls stF.trace = objs.map (fun o => (exportFilepath o, [o])) ∧
      ∀ k, (hk : k < objs.length) →
        stF.trace[7 * k + 5]? =
          some (HostCall.bake "DIFFUSE" "VERTEX_COLORS" (some objs[k]) [objs[k]]) ∧
        stF.trace[7 * k + 6]? =
          some (HostCall.objExport (exportFilepath objs[k]) [objs[k]]) := by
  refine ⟨_, execute_noFail_found data ⟨sel, act, []⟩ objs h, ?_, ?_, ?_⟩
  · show bakeCalls ([] ++
      (HostCall.selectAll "DESELECT" :: objs.flatMap perObjectEvents)) = _
    rw [List.nil_append, bakeCalls_cons_selectAll, bakeCalls_flatMap]
  · show exportCalls ([] ++
      (HostCall.selectAll "DESELECT" :: objs.flatMap perObjectEvents)) = _
    rw [List.nil_append, exportCalls_cons_selectAll, exportCalls_flatMap]
  · intro k hk
    constructor
    · exact fullTrace_bake_getElem objs k hk
    · exact fullTrace_export_getElem objs k hk

/-- C1 at a concrete scene: a collection "Collection" holding one object
"Cube". -/
theorem claim_C1_witness :
    ∃ stF,
      execute noFail ⟨[("Collection", ["Cube"])]⟩ ⟨[], none, []⟩ =
        Except.ok (ExecReturn.statusSet ["FINISHED"], stF) ∧
      bakeCalls stF.trace =
        (["Cube"] : List String).map
          (fun o => ("DIFFUSE", "VERTEX_COLORS", some o, [o])) ∧
      exportCalls stF.trace =
        (["Cube"] : List String).map (fun o => (exportFilepath o, [o])) ∧
      ∀ k, (hk : k < (["Cube"] : List String).length) →
        stF.trace[7 * k + 5]? =
          some (HostCall.bake "DIFFUSE" "VERTEX_COLORS"
            (some (["Cube"] : List String)[k]) [(["Cube"] : List String)[k]]) ∧
        stF.trace[7 * k + 6]? =
          some (HostCall.objExport (exportFilepath (["Cube"] : List String)[k])
            [(["Cube"] : List String)[k]]) :=
  claim_C1 ⟨[("Collection", ["Cube"])]⟩ [] none ["Cube"] rfl

/-- C2: every export call of a run of `execute` receives the file path
obtained by joining the fixed output directory with the object's name
lowercased plus the fixed extension ".obj"; directory and extension are
the same constants for every object. -/
theorem claim_C2 (data : BlenderData) (sel : List String) (act : Option String)
    (objs : List String)
    (h : collections_get data collection_name = some objs) :
    ∃ stF,
      execute noFail data ⟨sel, act, []⟩ =
        Except.ok (ExecReturn.statusSet ["FINISHED"], stF) ∧
      exportCalls stF.trace =
        objs.map (fun o =>
          (os_path_join output_directory (o.toLower ++ ".obj"), [o])) ∧
      ∀ entry ∈ exportCalls stF.trace, ∃ o ∈ objs,
        entry = (os_path_join output_directory (o.toLower ++ ".obj"), [o]) := by
  refine ⟨_, execute_noFail_found data ⟨sel, act, []⟩ objs h, ?_, ?_⟩
  · show exportCalls ([] ++
      (HostCall.selectAll "DESELECT" :: objs.flatMap perObjectEvents)) = _
    rw [List.nil_append, exportCalls_cons_selectAll, exportCalls_flatMap]
    rfl
  · intro entry hentry
    have hcalls : exportCalls (([] : List HostCall) ++
        (HostCall.selectAll "DESELECT" :: objs.flatMap perObjectEvents)) =
        objs.map (fun o =>
          (os_path_join output_directory (o.toLower ++ ".obj"), [o])) := by
      rw [List.nil_append, exportCalls_cons_selectAll, exportCalls_flatMap]
      rfl
    rw [hcalls, List.mem_map] at hentry
    obtain ⟨o, ho, hoeq⟩ := hentry
    exact ⟨o, ho, hoeq.symm⟩

/-- C2 at a concrete scene with one object "Cube". -/
theorem claim_C2_witness :
    ∃ stF,
      execute noFail ⟨[("Collection", ["Cube"])]⟩ ⟨[], none, []⟩ =
        Except.ok (ExecReturn.statusSet ["FINISHED"], stF) ∧
      exportCalls stF.trace =
        (["Cube"] : List String).map (fun o =>
          (os_path_join output_directory (o.toLower ++ ".obj"), [o])) ∧
      ∀ entry ∈ exportCalls stF.trace, ∃ o ∈ (["Cube"] : List String),
        entry = (os_path_join output_directory (o.toLower ++ ".obj"), [o]) :=
  claim_C2 ⟨[("Collection", ["Cube"])]⟩ [] none ["Cube"] rfl

/-- C3: when the collection named "Collection" is missing, `execute`
logs "Collection not found." and returns early; the returned value is
Python's `None`, which is not a failure status (regardless of whether the
host's bake or export operations would have failed). -/
theorem claim_C3 (orc : HostOracle) (data : BlenderData) (st : BlenderState)
    (h : collections_get data collection_name = none) :
    execute orc data st =
      Except.ok (ExecReturn.pyNone,
        { st with trace := st.trace ++
            [HostCall.printMsg "Collection not found."] }) ∧
    isFailureStatus ExecReturn.pyNone = false := by
  constructor
  · simp [execute, h, doPrint]
  · rfl

/-- C3 at a concrete scene with no collections at all. -/
theorem claim_C3_witness :
    execute noFail ⟨[]⟩ ⟨[], none, []⟩ =
      Except.ok (ExecReturn.pyNone,
        ⟨[], none, [HostCall.printMsg "Collection not found."]⟩) ∧
    isFailureStatus ExecReturn.pyNone = false :=
  claim_C3 noFail ⟨[]⟩ ⟨[], none, []⟩ rfl

/-- C4: on the missing-collection path, `execute` performs no bake, no
export and no selection change before returning: the selection and active
object are unchanged and the only host call added to the trace is the log
message. -/
theorem claim_C4 (orc : HostOracle) (data : BlenderData) (st : BlenderState)
    (h : collections_get data collection_name = none) :
    ∃ stF, execute orc data st = Except.ok (ExecReturn.pyNone, stF) ∧
      stF.selected = st.selected ∧
      stF.active = st.active ∧
      stF.trace = st.trace ++ [HostCall.printMsg "Collection not found."] ∧
      sceneCallFree [HostCall.printMsg "Collection not found."] = true := by
  refine ⟨doPrint "Collection not found." st, ?_, rfl, rfl, rfl, rfl⟩
  simp [execute, h]

/-- C4 at a concrete scene whose only collection has a different name. -/
theorem claim_C4_witness :
    ∃ stF, execute noFail ⟨[("Other", ["Cube"])]⟩ ⟨["Cube"], some "Cube", []⟩ =
      Except.ok (ExecReturn.pyNone, stF) ∧
      stF.selected = ["Cube"] ∧
      stF.active = some "Cube" ∧
      stF.trace = [] ++ [HostCall.printMsg "Collection not found."] ∧
      sceneCallFree [HostCall.printMsg "Collection not found."] = true :=
  claim_C4 noFail ⟨[("Other", ["Cube"])]⟩ ⟨["Cube"], some "Cube", []⟩ (by decide)

/-- C5: the host calls of a run of `execute` are strictly sequential and
per-object ordered: the `k`-th object's bake call sits at trace position
`bakeCallIndex k`, its export call at `exportCallIndex k`, the bake call
precedes the export call of the same object, and every earlier object's
export call precedes the bake call of every later object. -/
theorem claim_C5 (data : BlenderData) (sel : List String) (act : Option String)
    (objs : List String)
    (h : collections_get data collection_name = some objs) :
    ∃ stF,
      execute noFail data ⟨sel, act, []⟩ =
        Except.ok (ExecReturn.statusSet ["FINISHED"], stF) ∧
      ∀ k, (hk : k < objs.length) →
        stF.trace[bakeCallIndex k]? =
          some (HostCall.bake "DIFFUSE" "VERTEX_COLORS" (some objs[k]) [objs[k]]) ∧
        stF.trace[exportCallIndex k]? =
          some (HostCall.objExport (exportFilepath objs[k]) [objs[k]]) ∧
        bakeCallIndex k < exportCallIndex k ∧
        ∀ j, j < k → exportCallIndex j < bakeCallIndex k := by
  refine ⟨_, execute_noFail_found data ⟨sel, act, []⟩ objs h, ?_⟩
  intro k hk
  refine ⟨fullTrace_bake_getElem objs k hk, fullTrace_export_getElem objs k hk,
    ?_, ?_⟩
  · simp [bakeCallIndex, exportCallIndex]
  · intro j hj
    simp only [bakeCallIndex, exportCallIndex]
    omega

/-- C5 at a concrete scene with two objects, "A" then "B". -/
theorem claim_C5_witness :
    ∃ stF,
      execute noFail ⟨[("Collection", ["A", "B"])]⟩ ⟨[], none, []⟩ =
        Except.ok (ExecReturn.statusSet ["FINISHED"], stF) ∧
      ∀ k, (hk : k < (["A", "B"] : List String).length) →
        stF.trace[bakeCallIndex k]? =
          some (HostCall.bake "DIFFUSE" "VERTEX_COLORS"
            (some (["A", "B"] : List String)[k]) [(["A", "B"] : List String)[k]]) ∧
        stF.trace[exportCallIndex k]? =
          some (HostCall.objExport (exportFilepath (["A", "B"] : List String)[k])
            [(["A", "B"] : List String)[k]]) ∧
        bakeCallIndex k < exportCallIndex k ∧
        ∀ j, j < k → exportCallIndex j < bakeCallIndex k :=
  claim_C5 ⟨[("Collection", ["A", "B"])]⟩ [] none ["A", "B"] rfl

/-- C6: `register` registers the operator class with the host and appends
the operator's entry to the existing `VIEW3D_MT_object` menu. -/
theorem claim_C6 (ui : HostUI) :
    bl_idname ∈ (register ui).registeredClasses ∧
    (register ui).registeredClasses = ui.registeredClasses ++ [bl_idname] ∧
    (register ui).view3dObjectMenu = ui.view3dObjectMenu ++ [bl_idname] := by
  refine ⟨?_, rfl, rfl⟩
  simp [register]

/-- C6 at the empty host state. -/
theorem claim_C6_witness :
    bl_idname ∈ (register ⟨[], []⟩).registeredClasses ∧
    (register ⟨[], []⟩).registeredClasses = ([] : List String) ++ [bl_idname] ∧
    (register ⟨[], []⟩).view3dObjectMenu = ([] : List String) ++ [bl_idname] :=
  claim_C6 ⟨[], []⟩

/-- C7: an error raised inside a bake call or an export call (the first
host call that fails during the loop) propagates unchanged out of
`execute`: the run's result is exactly that error. -/
theorem claim_C7 (orc : HostOracle) (data : BlenderData) (st : BlenderState)
    (pre post : List String) (o : String) (e : String)
    (h : collections_get data collection_name = some (pre ++ o :: post))
    (hpre : ∀ p ∈ pre, orc.bakeErr p = none ∧ orc.exportErr p = none)
    (herr : orc.bakeErr o = some e ∨
      (orc.bakeErr o = none ∧ orc.exportErr o = some e)) :
    execute orc data st = Except.error e := by
  simp only [execute, h]
  rw [runObjects_error orc pre o post e hpre herr]

/-- C7 at a concrete scene: the bake of the single object "Cube" raises
"bake failed", and `execute` results in exactly that error. -/
theorem claim_C7_witness :
    execute ⟨fun _ => some "bake failed", fun _ => none⟩
      ⟨[("Collection", ["Cube"])]⟩ ⟨[], none, []⟩ =
      Except.error "bake failed" :=
  claim_C7 ⟨fun _ => some "bake failed", fun _ => none⟩
    ⟨[("Collection", ["Cube"])]⟩ ⟨[], none, []⟩ [] [] "Cube" "bake failed"
    rfl (by simp) (Or.inl rfl)

/-- C8: `register` followed by `unregister` is not an identity on the host
state: the menu entry appended by `register` persists (only the class
registration is undone), so the menu differs from its original state. -/
theorem claim_C8 (ui : HostUI) :
    (unregister (register ui)).view3dObjectMenu =
      ui.view3dObjectMenu ++ [bl_idname] ∧
    bl_idname ∈ (unregister (register ui)).view3dObjectMenu ∧
    (unregister (register ui)).view3dObjectMenu ≠ ui.view3dObjectMenu ∧
    (bl_idname ∉ ui.registeredClasses →
      (unregister (register ui)).registeredClasses = ui.registeredClasses) := by
  refine ⟨rfl, by simp [unregister, register], ?_, ?_⟩
  · intro heq
    have hlen := congrArg List.length heq
    simp [unregister, register] at hlen
  · intro hnotin
    show (ui.registeredClasses ++ [bl_idname]).erase bl_idname =
      ui.registeredClasses
    rw [List.erase_append_right _ hnotin]
    simp

/-- C8 at the empty host state. -/
theorem claim_C8_witness :
    (unregister (register ⟨[], []⟩)).view3dObjectMenu =
      ([] : List String) ++ [bl_idname] ∧
    bl_idname ∈ (unregister (register ⟨[], []⟩)).view3dObjectMenu ∧
    (unregister (register ⟨[], []⟩)).view3dObjectMenu ≠ ([] : List String) ∧
    (unregister (register ⟨[], []⟩)).registeredClasses = ([] : List String) := by
  have hmain := claim_C8 ⟨[], []⟩
  exact ⟨hmain.1, hmain.2.1, hmain.2.2.1, hmain.2.2.2 (by simp)⟩

/-- C9: whenever the collection named "Collection" exists, an error-free
run of `execute` returns the status set containing exactly 'FINISHED',
also when the collection is empty. -/
theorem claim_C9 (data : BlenderData) (st : BlenderState) (objs : List String)
    (h : collections_get data collection_name = some objs) :
    ∃ stF, execute noFail data st =
      Except.ok (ExecReturn.statusSet ["FINISHED"], stF) :=
  ⟨_, execute_noFail_found data st objs h⟩

/-- C9 at a concrete scene whose collection "Collection" is empty. -/
theorem claim_C9_witness :
    ∃ stF, execute noFail ⟨[("Collection", [])]⟩ ⟨[], none, []⟩ =
      Except.ok (ExecReturn.statusSet ["FINISHED"], stF) :=
  claim_C9 ⟨[("Collection", [])]⟩ ⟨[], none, []⟩ [] rfl

/-- C10: at the moment of every export call of a run of `execute`, exactly
the object currently being processed is selected (the export event records
the selection as the singleton of that object), and after the loop
completes no object remains selected. -/
theorem claim_C10 (data : BlenderData) (sel : List String) (act : Option String)
    (objs : List String)
    (h : collections_get data collection_name = some objs) :
    ∃ stF,
      execute noFail data ⟨sel, act, []⟩ =
        Except.ok (ExecReturn.statusSet ["FINISHED"], stF) ∧
      (∀ fp selAtExport, HostCall.objExport fp selAtExport ∈ stF.trace →
        ∃ o ∈ objs, selAtExport = [o] ∧ fp = exportFilepath o) ∧
      stF.selected = [] := by
  refine ⟨_, execute_noFail_found data ⟨sel, act, []⟩ objs h, ?_, rfl⟩
  intro fp selAtExport hmem
  simp only [List.nil_append, List.mem_cons] at hmem
  rcases hmem with heq | hmem
  · exact absurd heq (by simp)
  · rw [List.mem_flatMap] at hmem
    obtain ⟨o, ho, hev⟩ := hmem
    simp only [perObjectEvents, List.mem_cons, List.not_mem_nil, or_false,
      reduceCtorEq, false_or, HostCall.objExport.injEq] at hev
    exact ⟨o, ho, hev.2, hev.1⟩

/-- C10 at a concrete scene with one object "Cube" that starts selected. -/
theorem claim_C10_witness :
    ∃ stF,
      execute noFail ⟨[("Collection", ["Cube"])]⟩ ⟨["Cube"], none, []⟩ =
        Except.ok (ExecReturn.statusSet ["FINISHED"], stF) ∧
      (∀ fp selAtExport, HostCall.objExport fp selAtExport ∈ stF.trace →
        ∃ o ∈ (["Cube"] : List String), selAtExport = [o] ∧
          fp = exportFilepath o) ∧
      stF.selected = [] :=
  claim_C10 ⟨[("Collection", ["Cube"])]⟩ ["Cube"] none ["Cube"] rfl

end BakeAndExport
